import Mathlib

/- Verification of the two AWS Lambda functions of the event-driven data
pipeline: the ingestion worker in src/lambda/processor/index.py and the
report generator in src/lambda/reporter/index.py.

The Python functions are shallowly embedded as pure, executable Lean
functions:

* DynamoDB numbers and Python ints become Int or Nat;
* Python floats become Rat (exact arithmetic; Python round(x, 2) becomes
  round-half-to-even of the exact value, matching CPython rounding mode);
* a Python function that can raise becomes a function into Except String;
* external effects (S3 reads and writes, DynamoDB writes, the clock and
  uuid4) are passed in explicitly as parameters or oracle records, so that
  every definition stays executable and deterministic;
* the token stream produced by csv.reader is taken as List (List String),
  one inner list of field strings per physical row; blank rows are the
  empty list (DictReader skips them);
* the result of json.loads is the inductive type Json below, and the
  Python operations used on it (the in operator, subscripting, iteration)
  are embedded with their Python semantics, including the TypeError cases.
-/

/- Insertion into a Python dict, represented as an insertion-ordered
association list: an existing key keeps its position and gets the new
value, a new key is appended at the end. -/
def pyDictInsert {κ ν : Type} [DecidableEq κ] (d : List (κ × ν)) (k : κ) (v : ν) :
    List (κ × ν) :=
  if d.any (fun p => p.1 = k) then
    d.map (fun p => if p.1 = k then (k, v) else p)
  else
    d ++ [(k, v)]

/- Building a Python dict from a sequence of key-value pairs (as dict(zip ...)
and dict comprehensions do): first occurrence of a key keeps its position,
later occurrences overwrite the value. -/
def pyDictOf {κ ν : Type} [DecidableEq κ] (pairs : List (κ × ν)) : List (κ × ν) :=
  pairs.foldl (fun d p => pyDictInsert d p.1 p.2) []

namespace Processor

/- A value stored in a row dict produced by csv.DictReader: a string field,
Python None (a missing trailing field, the restval default), or the list of
extra fields stored under the rest key when a row is longer than the
header. -/
inductive FieldVal where
  | str (s : String)
  | nil
  | rest (extras : List String)
deriving DecidableEq, Repr

/- A row as produced by csv.DictReader: keys are the header names
(Option.some) or the rest key None (Option.none). -/
abbrev DictRow := List (Option String × FieldVal)

/- csv.DictReader row construction: zip the header with the row's fields;
header names left without a field are bound to None (restval); fields beyond
the header length are collected in a list under the rest key None. Duplicate
header names collapse as in dict(zip(header, row)). -/
def makeDictRow (header fields : List String) : DictRow :=
  let zipped := (header.zip fields).map
    (fun p => ((some p.1 : Option String), FieldVal.str p.2))
  let missing := (header.drop fields.length).map
    (fun h => ((some h : Option String), FieldVal.nil))
  let extras : DictRow :=
    if header.length < fields.length then
      [(Option.none, FieldVal.rest (fields.drop header.length))]
    else []
  pyDictOf (zipped ++ missing ++ extras)

/- v.strip() if isinstance(v, str) else v -/
def stripVal : FieldVal → FieldVal
  | .str s => .str s.trim
  | v => v

/- The dict comprehension in process_csv_data:
cleaned_row = \x7bk.strip(): v.strip() if isinstance(v, str) else v
               for k, v in row.items()\x7d
k.strip() raises AttributeError when k is the rest key None, which happens
exactly when the row had more fields than the header. -/
def transformStep (d : List (String × FieldVal)) (p : Option String × FieldVal) :
    Except String (List (String × FieldVal)) :=
  match p.1 with
  | some k => Except.ok (pyDictInsert d k.trim (stripVal p.2))
  | none => Except.error "AttributeError: NoneType has no strip"

def transformRow (row : DictRow) : Except String (List (String × FieldVal)) :=
  row.foldlM transformStep []

/- cleaned_row['processed_at'] = ...; cleaned_row['row_id'] = ... -/
def stampRow (now rid : String) (d : List (String × FieldVal)) :
    List (String × FieldVal) :=
  pyDictInsert (pyDictInsert d "processed_at" (FieldVal.str now)) "row_id"
    (FieldVal.str rid)

structure Summary where
  total_records : Nat
  valid_records : Nat
  invalid_records : Nat
deriving DecidableEq, Repr

structure CsvResult where
  summary : Summary
  records : List (List (String × FieldVal))
  processed_timestamp : String
deriving DecidableEq, Repr

/- One iteration of the row loop of process_csv_data. The accumulator is the
running summary plus the accumulated records; rowId abstracts uuid.uuid4(),
applied to the number of uuid4 calls made so far (one per valid row). -/
def csvStep (now : String) (rowId : Nat → String) (header : List String)
    (acc : Summary × List (List (String × FieldVal))) (fields : List String) :
    Summary × List (List (String × FieldVal)) :=
  let s := acc.1
  let s := { s with total_records := s.total_records + 1 }
  match transformRow (makeDictRow header fields) with
  | .ok cleaned =>
      ({ s with valid_records := s.valid_records + 1 },
        acc.2 ++ [stampRow now (rowId acc.2.length) cleaned])
  | .error _ =>
      ({ s with invalid_records := s.invalid_records + 1 }, acc.2)

/- process_csv_data. The first row of the token stream is the header
(DictReader.fieldnames); blank data rows (empty token lists) are skipped by
DictReader before the loop body runs; now abstracts datetime.utcnow(). -/
def process_csv_data (now : String) (rowId : Nat → String)
    (rows : List (List String)) : CsvResult :=
  match rows with
  | [] => { summary := ⟨0, 0, 0⟩, records := [], processed_timestamp := now }
  | header :: rest =>
    let dataRows := rest.filter (fun row => row ≠ [])
    let r := dataRows.foldl (csvStep now rowId header) (⟨0, 0, 0⟩, [])
    { summary := r.1, records := r.2, processed_timestamp := now }

/- A DynamoDB metadata item as written by update_metadata. Optional fields
are absent (Option.none) when the corresponding keyword argument was not
supplied or was falsy. -/
structure MetaItem where
  fileId : String
  fileName : String
  processingStatus : String
  uploadTimestamp : Int
  fileSize : Int
  lastUpdated : String
  processedKey : Option String
  recordCount : Option Int
  errorMessage : Option String
deriving DecidableEq, Repr

/- update_metadata. now_epoch and now_iso abstract the two
datetime.utcnow() reads inside the function; note that uploadTimestamp is
recomputed from the clock on EVERY call. The truthiness tests on
processed_key and error_message drop empty strings; record_count uses an
"is not None" test, so 0 is kept. -/
def update_metadata (now_epoch : Int) (now_iso : String)
    (file_id file_name status : String) (file_size : Int)
    (processed_key : Option String) (record_count : Option Int)
    (error_message : Option String) : MetaItem :=
  { fileId := file_id
    fileName := file_name
    processingStatus := status
    uploadTimestamp := now_epoch
    fileSize := file_size
    lastUpdated := now_iso
    processedKey :=
      match processed_key with
      | some s => if s = "" then Option.none else some s
      | none => Option.none
    recordCount := record_count
    errorMessage :=
      match error_message with
      | some s => if s = "" then Option.none else some s
      | none => Option.none }

/- table.put_item: a full-item replacement keyed by fileId. -/
def put_item (store : List MetaItem) (item : MetaItem) : List MetaItem :=
  item :: store.filter (fun it => it.fileId ≠ item.fileId)

def get_item (store : List MetaItem) (fid : String) : Option MetaItem :=
  store.find? (fun it => it.fileId = fid)

end Processor

namespace Processor

/- The result of json.loads on an SQS message body. Objects are
insertion-ordered key-value lists; duplicate keys are already collapsed by
json.loads (last occurrence wins), which lookupLast reproduces. -/
inductive Json where
  | obj (kvs : List (String × Json))
  | arr (xs : List Json)
  | str (s : String)
  | num (n : Int)
  | jbool (b : Bool)
  | null
deriving Repr

/- Python == between a value and the string k: true only for an equal
string (strings never compare equal to numbers, booleans, lists, ...). -/
def Json.isStrEq (k : String) : Json → Bool
  | .str s => s = k
  | _ => false

def lookupLast (kvs : List (String × Json)) (k : String) : Option Json :=
  ((kvs.filter (fun p => p.1 = k)).getLast?).map Prod.snd

/- The Python expression k in x: key membership for a dict, element
equality for a list, substring test for a str, TypeError otherwise. -/
def pyContains (k : String) : Json → Except String Bool
  | .obj kvs => .ok (kvs.any (fun p => p.1 = k))
  | .arr xs => .ok (xs.any (Json.isStrEq k))
  | .str s => .ok (s.toList.tails.any (fun t => k.toList.isPrefixOf t))
  | _ => .error "TypeError: argument is not iterable"

/- The Python expression x[k] with a string subscript: dict lookup
(KeyError when absent), TypeError for every other kind of value. -/
def pyIndex (j : Json) (k : String) : Except String Json :=
  match j with
  | .obj kvs =>
    match lookupLast kvs k with
    | some v => .ok v
    | none => .error "KeyError"
  | _ => .error "TypeError: subscript is not an integer"

/- Iteration keys of a dict: unique keys in first-occurrence order. -/
def objKeys (kvs : List (String × Json)) : List String :=
  kvs.foldl (fun acc p => if acc.contains p.1 then acc else acc ++ [p.1]) []

/- The Python expression iter(x): list elements, the characters of a str,
the keys of a dict; TypeError for a number, boolean or None. -/
def pyIter : Json → Except String (List Json)
  | .arr xs => .ok xs
  | .str s => .ok (s.toList.map (fun c => Json.str (String.singleton c)))
  | .obj kvs => .ok ((objKeys kvs).map Json.str)
  | _ => .error "TypeError: object is not iterable"

/- Python input_key.rsplit('.', 1)[0]: drop the last extension. -/
def rsplitExt (s : String) : String :=
  let parts := s.splitOn "."
  if parts.length ≤ 1 then s else String.intercalate "." parts.dropLast

/- Zero-padding of f-string \x7bn:02d\x7d. -/
def pad2 (n : Nat) : String :=
  if n < 10 then "0" ++ toString n else toString n

/- generate_output_key, with the current date and HHMMSS string taken from
the ambient clock as explicit arguments. -/
def generate_output_key (year month day : Nat) (hms : String)
    (input_key : String) : String :=
  let filename := rsplitExt ((input_key.splitOn "/").getLastD "")
  "processed/" ++ toString year ++ "/" ++ pad2 month ++ "/" ++ pad2 day ++
    "/" ++ filename ++ "_" ++ hms ++ ".json"

/- The external collaborators of process_s3_event, abstracted as oracles:
getObject is the S3 download of one object keyed by the bucket and key
values of the event (returning the UTF-8 decoded, csv-tokenized content, or
a raised error), putObject the write of the processed artifact to the
output bucket, and the putMeta fields are the two DynamoDB writes of the
happy path (the COMPLETED one carries the record count). -/
structure Env where
  getObject : Json → Json → Except String (List (List String))
  putObject : String → Except String Unit
  putMetaProcessing : Except String Unit
  putMetaCompleted : Nat → Except String Unit

/- The per-invocation ambient values read inside process_s3_event:
uuid.uuid4() for the file id and the per-row ids, and the clock. -/
structure Ctx where
  file_id : String
  now_epoch : Int
  now_iso : String
  year : Nat
  month : Nat
  day : Nat
  hms : String
  row_id : Nat → String

/- The body of the try block of process_s3_event, step by step in source
order: extract s3.bucket.name, s3.object.key and s3.object.size (each a
fresh subscript chain, raising KeyError or TypeError on malformed events),
write the PROCESSING metadata record, download the object, run
process_csv_data (total, never raises), derive the output key (raising
AttributeError inside generate_output_key when the key is not a string),
upload the artifact, write the COMPLETED metadata record. -/
def process_s3_event_run (env : Env) (ctx : Ctx) (s3_record : Json) :
    Except String Unit := do
  let bucket_name ← do
    let s3 ← pyIndex s3_record "s3"
    let bucket ← pyIndex s3 "bucket"
    pyIndex bucket "name"
  let object_key ← do
    let s3 ← pyIndex s3_record "s3"
    let obj ← pyIndex s3 "object"
    pyIndex obj "key"
  let _file_size ← do
    let s3 ← pyIndex s3_record "s3"
    let obj ← pyIndex s3 "object"
    pyIndex obj "size"
  let _ ← env.putMetaProcessing
  let rows ← env.getObject bucket_name object_key
  let processed := process_csv_data ctx.now_iso ctx.row_id rows
  let key_str ←
    match object_key with
    | .str s => Except.ok s
    | _ => Except.error "AttributeError: split on a non-string key"
  let output_key := generate_output_key ctx.year ctx.month ctx.day ctx.hms key_str
  let _ ← env.putObject output_key
  let _ ← env.putMetaCompleted processed.records.length
  pure ()

/- process_s3_event: every exception of the body is caught at the event
boundary and turned into the return value False. The except branch also
attempts a best-effort FAILED metadata write whose own failure (including
the NameError when the exception predates the file_id assignment) is
swallowed by a bare except, so it cannot change the returned value. -/
def process_s3_event (env : Env) (ctx : Ctx) (s3_record : Json) : Bool :=
  match process_s3_event_run env ctx s3_record with
  | .ok _ => true
  | .error _ => false

/- One SQS record of the handler batch: its body string either fails
json.loads or parses to a Json value. -/
inductive SqsBody where
  | badJson
  | parsed (j : Json)

/- The handler's return value. The Python function returns statusCode 200
and a JSON body carrying the two counters; the body is modeled by the
counters themselves. -/
structure HandlerResult where
  statusCode : Nat
  successful : Nat
  failed : Nat
deriving DecidableEq, Repr

/- The inner loop over message_body['Records']. -/
def eventsStep (env : Env) (ctx : Ctx) (acc : Nat × Nat) (it : Json) :
    Nat × Nat :=
  if process_s3_event env ctx it then (acc.1 + 1, acc.2) else (acc.1, acc.2 + 1)

/- One iteration of the outer loop over event['Records']: parse the body
(counting a parse failure as one failed record), test 'Records' in
message_body, and when the key-membership test succeeds iterate
message_body['Records'] feeding each element to process_s3_event. Any
exception of the iteration itself (TypeError of the in operator on a
non-container body, TypeError of the subscript or of iteration) is caught
by the per-record except and counted as one failure; a body without the
key is skipped without touching either counter. -/
def envelopeStep (env : Env) (ctx : Ctx) (acc : Nat × Nat) (rec : SqsBody) :
    Nat × Nat :=
  match rec with
  | .badJson => (acc.1, acc.2 + 1)
  | .parsed j =>
    match pyContains "Records" j with
    | .error _ => (acc.1, acc.2 + 1)
    | .ok false => acc
    | .ok true =>
      match pyIndex j "Records" with
      | .error _ => (acc.1, acc.2 + 1)
      | .ok v =>
        match pyIter v with
        | .error _ => (acc.1, acc.2 + 1)
        | .ok items => items.foldl (eventsStep env ctx) acc

/- The Lambda handler of the ingestion worker. -/
def handler (env : Env) (ctx : Ctx) (records : List SqsBody) : HandlerResult :=
  let c := records.foldl (envelopeStep env ctx) (0, 0)
  { statusCode := 200, successful := c.1, failed := c.2 }

/- Number of successfully processed embedded events contributed by one
SQS record: only a parsed body passing the key-membership test with an
iterable value contributes, one per event process_s3_event accepts. -/
def envSucc (env : Env) (ctx : Ctx) : SqsBody → Nat
  | .badJson => 0
  | .parsed j =>
    match pyContains "Records" j with
    | .error _ => 0
    | .ok false => 0
    | .ok true =>
      match pyIndex j "Records" with
      | .error _ => 0
      | .ok v =>
        match pyIter v with
        | .error _ => 0
        | .ok items => items.countP (process_s3_event env ctx)

/- Number of failures contributed by one SQS record: one for a body that
fails to parse or whose handling raises at the envelope level, and one per
embedded event process_s3_event rejects. -/
def envFail (env : Env) (ctx : Ctx) : SqsBody → Nat
  | .badJson => 1
  | .parsed j =>
    match pyContains "Records" j with
    | .error _ => 1
    | .ok false => 0
    | .ok true =>
      match pyIndex j "Records" with
      | .error _ => 1
      | .ok v =>
        match pyIter v with
        | .error _ => 1
        | .ok items => items.countP (fun it => !(process_s3_event env ctx it))

end Processor

namespace Reporter

/- A metadata item as seen by the report generator: every attribute access
goes through item.get, so every field may be absent. DynamoDB Decimal
numbers are modeled by Int (the code wraps every read in int(...)). -/
structure RItem where
  fileName : Option String
  processingStatus : Option String
  uploadTimestamp : Option Int
  fileSize : Option Int
  recordCount : Option Int
  errorMessage : Option String
deriving DecidableEq, Repr

/- Truthiness of item.get('recordCount'): present and nonzero. -/
def rcTruthy (i : RItem) : Bool :=
  match i.recordCount with
  | some n => n ≠ 0
  | none => false

/- Truthiness of item.get('errorMessage'): present and nonempty. -/
def emTruthy (i : RItem) : Bool :=
  match i.errorMessage with
  | some s => s ≠ ""
  | none => false

/- The DynamoDB filter Attr('uploadTimestamp').between(start, end):
inclusive on both ends, false when the attribute is absent. -/
def inWindow (startTs endTs : Int) (i : RItem) : Bool :=
  match i.uploadTimestamp with
  | some t => startTs ≤ t ∧ t ≤ endTs
  | none => false

/- fetch_report_data. The paginated store is modeled as the list of pages
the scan walks: the first call returns the head page together with a
continuation token exactly when further pages exist, and the while loop
re-issues the scan with the token until the token is gone, extending the
item list with each page (each page filtered by the store with inWindow). -/
def fetch_report_data (startTs endTs : Int) :
    List (List RItem) → List RItem
  | [] => []
  | page :: rest =>
    page.filter (inWindow startTs endTs) ++ fetch_report_data startTs endTs rest

/- Python round(x, 2) on the exact value: round half to even. -/
def roundHalfEven (x : ℚ) : ℤ :=
  let f := ⌊x⌋
  let r := x - (f : ℚ)
  if r < 1 / 2 then f
  else if 1 / 2 < r then f + 1
  else if f % 2 = 0 then f else f + 1

def round2 (x : ℚ) : ℚ :=
  ((roundHalfEven (x * 100) : ℚ)) / 100

structure HourStat where
  count : Nat
  completed : Nat
  failed : Nat
deriving DecidableEq, Repr

structure ErrEntry where
  fileName : String
  error : String
  timestamp : String
deriving DecidableEq, Repr

structure TopEntry where
  fileName : Option String
  recordCount : Int
deriving DecidableEq, Repr

structure ReportMeta where
  generated_at : String
  report_period_start : String
  report_period_end : String
  environment : String
deriving DecidableEq, Repr

structure ReportSummary where
  total_files_processed : Nat
  successful_files : Nat
  failed_files : Nat
  in_progress_files : Nat
  success_rate_percent : ℚ
  total_records_processed : Int
  total_data_size_mb : ℚ
deriving DecidableEq, Repr

structure Report where
  report_metadata : ReportMeta
  summary : ReportSummary
  hourly_breakdown : List (String × HourStat)
  errors : List ErrEntry
  top_files : List TopEntry
deriving DecidableEq, Repr

/- The body of the hourly loop for one item, after its bucket has been
looked up (or freshly initialised to zeros). -/
def bumpHour (st : HourStat) (status : Option String) : HourStat :=
  let st := { st with count := st.count + 1 }
  if status = some "COMPLETED" then { st with completed := st.completed + 1 }
  else if status = some "FAILED" then { st with failed := st.failed + 1 }
  else st

/- The hourly_stats dict accumulation: the bucket key comes from
datetime.fromtimestamp(int(item.get('uploadTimestamp', 0))) in the process
timezone, abstracted as the function hourKey. -/
def hourlyFold (hourKey : Int → String) (data : List RItem) :
    List (String × HourStat) :=
  data.foldl
    (fun stats i =>
      let h := hourKey (i.uploadTimestamp.getD 0)
      let cur := ((stats.find? (fun p => p.1 = h)).map Prod.snd).getD ⟨0, 0, 0⟩
      pyDictInsert stats h (bumpHour cur i.processingStatus))
    []

/- item.get('processingStatus') == 'FAILED' and item.get('errorMessage') -/
def failedWithMsg (i : RItem) : Bool :=
  (i.processingStatus == some "FAILED") && emTruthy i

/- One entry of the errors list; isoOfTs abstracts
datetime.fromtimestamp(ts).isoformat(). -/
def mkErr (isoOfTs : Int → String) (i : RItem) : ErrEntry :=
  { fileName := i.fileName.getD "Unknown"
    error := i.errorMessage.getD "No error message"
    timestamp := isoOfTs (i.uploadTimestamp.getD 0) }

/- The errors accumulation loop of generate_report, in scan order. -/
def errorsFold (isoOfTs : Int → String) (data : List RItem) : List ErrEntry :=
  data.foldl (fun es i => if failedWithMsg i then es ++ [mkErr isoOfTs i] else es) []

/- The list comprehension feeding sorted(...) for top_files: one entry per
item whose recordCount is truthy. -/
def topEntries (data : List RItem) : List TopEntry :=
  (data.filter rcTruthy).map
    (fun i => { fileName := i.fileName, recordCount := i.recordCount.getD 0 })

/- The comparison realised by sorted(key=lambda x: x['recordCount'],
reverse=True): a precedes b when b's count is at most a's; CPython's sort
is stable and reverse=True keeps ties in original order, which mergeSort
with this relation reproduces. -/
def topLe (a b : TopEntry) : Bool :=
  decide (b.recordCount ≤ a.recordCount)

def sortedTop (data : List RItem) : List TopEntry :=
  (topEntries data).mergeSort topLe

/- generate_report. hourKey and isoOfTs abstract the process-timezone
datetime conversions, environment the ENVIRONMENT setting, now_iso the
datetime.utcnow().isoformat() read, start_iso and end_iso the isoformat of
the window bounds. Python float arithmetic is modeled exactly over Rat. -/
def generate_report (hourKey isoOfTs : Int → String) (environment : String)
    (now_iso start_iso end_iso : String) (data : List RItem) : Report :=
  let total_files := data.length
  let completed_files := data.countP (fun i => i.processingStatus == some "COMPLETED")
  let failed_files := data.countP (fun i => i.processingStatus == some "FAILED")
  let processing_files := data.countP (fun i => i.processingStatus == some "PROCESSING")
  let total_records := ((data.filter rcTruthy).map (fun i => i.recordCount.getD 0)).sum
  let total_size_bytes := (data.map (fun i => i.fileSize.getD 0)).sum
  let total_size_mb : ℚ := (total_size_bytes : ℚ) / (1024 * 1024)
  let success_rate : ℚ :=
    if total_files > 0 then ((completed_files : ℚ) / (total_files : ℚ)) * 100 else 0
  { report_metadata :=
      { generated_at := now_iso
        report_period_start := start_iso
        report_period_end := end_iso
        environment := environment }
    summary :=
      { total_files_processed := total_files
        successful_files := completed_files
        failed_files := failed_files
        in_progress_files := processing_files
        success_rate_percent := round2 success_rate
        total_records_processed := total_records
        total_data_size_mb := round2 total_size_mb }
    hourly_breakdown := hourlyFold hourKey data
    errors := (errorsFold isoOfTs data).take 10
    top_files := (sortedTop data).take 10 }

/- A constant stand-in for the timezone conversion functions, used by the
closed concrete instances below. -/
def constKey : Int → String := fun _ => ""

end Reporter

namespace Processor

/- A trivial oracle instance for closed, concrete handler runs: the object
store download always raises (its result is never reached in those runs)
and the writes succeed. -/
def trivEnv : Env :=
  { getObject := fun _ _ => Except.error "NoSuchKey"
    putObject := fun _ => Except.ok ()
    putMetaProcessing := Except.ok ()
    putMetaCompleted := fun _ => Except.ok () }

def trivCtx : Ctx :=
  { file_id := "00000000-0000-0000-0000-000000000000"
    now_epoch := 0
    now_iso := "1970-01-01T00:00:00"
    year := 2024
    month := 1
    day := 1
    hms := "000000"
    row_id := fun _ => "row" }

/- The metadata store after the two writes performed for one successfully
processed file: the PROCESSING write at clock second 100 and the COMPLETED
write for the same fileId at clock second 105. -/
def c1_store : List MetaItem :=
  put_item
    (put_item []
      (update_metadata 100 "2024-01-01T00:01:40" "file-1" "in.csv" "PROCESSING"
        10 Option.none Option.none Option.none))
    (update_metadata 105 "2024-01-01T00:01:45" "file-1" "in.csv" "COMPLETED"
      10 (some "processed/2024/01/01/in_000145.json") (some 3) Option.none)

end Processor

namespace Reporter

/- Modelled from the spec sentence "total record count (sum of recordCount
over COMPLETED records with that field present)": the summary figure the
specification describes, to be compared with the one the code computes. -/
def totalRecordsCompletedSpec (data : List RItem) : Int :=
  ((data.filter
      (fun i => i.processingStatus == some "COMPLETED" && i.recordCount.isSome)).map
    (fun i => i.recordCount.getD 0)).sum

/- A FAILED metadata record that nevertheless carries a recordCount field,
as an arbitrary store may contain. -/
def c2Failed : RItem :=
  { fileName := some "bad.csv"
    processingStatus := some "FAILED"
    uploadTimestamp := some 10
    fileSize := some 1
    recordCount := some 5
    errorMessage := some "boom" }

/- A COMPLETED record for an empty input file: its recordCount field is
present with value 0, which Python truthiness treats like an absent one. -/
def c5Zero : RItem :=
  { fileName := some "empty.csv"
    processingStatus := some "COMPLETED"
    uploadTimestamp := some 10
    fileSize := some 1
    recordCount := some 0
    errorMessage := Option.none }

/- One matching record of the paginated-scan instance. -/
def pageItem : RItem :=
  { fileName := some "f.csv"
    processingStatus := some "COMPLETED"
    uploadTimestamp := some 500
    fileSize := some 1
    recordCount := some 1
    errorMessage := Option.none }

/- A store whose scan needs two pages to enumerate 150 matching records. -/
def twoPages : List (List RItem) :=
  [List.replicate 100 pageItem, List.replicate 50 pageItem]

/- A window of five records: three COMPLETED and two FAILED. -/
def fiveData : List RItem :=
  [ { fileName := some "a.csv", processingStatus := some "COMPLETED",
      uploadTimestamp := some 1, fileSize := some 1, recordCount := some 2,
      errorMessage := Option.none }
  , { fileName := some "b.csv", processingStatus := some "COMPLETED",
      uploadTimestamp := some 2, fileSize := some 1, recordCount := some 3,
      errorMessage := Option.none }
  , { fileName := some "c.csv", processingStatus := some "COMPLETED",
      uploadTimestamp := some 3, fileSize := some 1, recordCount := some 4,
      errorMessage := Option.none }
  , { fileName := some "d.csv", processingStatus := some "FAILED",
      uploadTimestamp := some 4, fileSize := some 1, recordCount := Option.none,
      errorMessage := some "parse error" }
  , { fileName := some "e.csv", processingStatus := some "FAILED",
      uploadTimestamp := some 5, fileSize := some 1, recordCount := Option.none,
      errorMessage := some "timeout" } ]

/- Two records with equal recordCount, for the stable tie-break instance. -/
def tieA : RItem :=
  { fileName := some "t1.csv", processingStatus := some "COMPLETED",
    uploadTimestamp := some 1, fileSize := some 1, recordCount := some 7,
    errorMessage := Option.none }

def tieB : RItem :=
  { fileName := some "t2.csv", processingStatus := some "COMPLETED",
    uploadTimestamp := some 2, fileSize := some 1, recordCount := some 7,
    errorMessage := Option.none }

def tieData : List RItem := [tieA, tieB]

def tieEntryA : TopEntry := { fileName := some "t1.csv", recordCount := 7 }

def tieEntryB : TopEntry := { fileName := some "t2.csv", recordCount := 7 }

end Reporter

/- ------------------------------------------------------------------ -/
/- Helper lemmas.                                                     -/
/- ------------------------------------------------------------------ -/

theorem pyDictInsert_keys {κ ν : Type} [DecidableEq κ] (P : κ → Prop)
    (d : List (κ × ν)) (k : κ) (v : ν)
    (hd : ∀ q ∈ d, P q.1) (hk : P k) : ∀ q ∈ pyDictInsert d k v, P q.1 := by
  intro q hq
  unfold pyDictInsert at hq
  split at hq
  · rcases List.mem_map.mp hq with ⟨p, hp, he⟩
    by_cases hpk : p.1 = k
    · rw [if_pos hpk] at he
      cases he
      exact hk
    · rw [if_neg hpk] at he
      cases he
      exact hd _ hp
  · rcases List.mem_append.mp hq with h1 | h2
    · exact hd q h1
    · have : q = (k, v) := by simpa using h2
      cases this
      exact hk

theorem pyDictOf_foldl_keys {κ ν : Type} [DecidableEq κ] (P : κ → Prop) :
    ∀ (pairs : List (κ × ν)) (d : List (κ × ν)),
      (∀ q ∈ d, P q.1) → (∀ q ∈ pairs, P q.1) →
      ∀ q ∈ pairs.foldl (fun d p => pyDictInsert d p.1 p.2) d, P q.1 := by
  intro pairs
  induction pairs with
  | nil => intro d hd _ q hq; exact hd q hq
  | cons a t ih =>
    intro d hd hp q hq
    simp only [List.foldl_cons] at hq
    exact ih _ (pyDictInsert_keys P d a.1 a.2 hd (hp a (by simp)))
      (fun q hq => hp q (by simp [hq])) q hq

theorem pyDictOf_keys {κ ν : Type} [DecidableEq κ] (P : κ → Prop)
    (pairs : List (κ × ν)) (h : ∀ q ∈ pairs, P q.1) :
    ∀ q ∈ pyDictOf pairs, P q.1 :=
  pyDictOf_foldl_keys P pairs [] (by intro q hq; cases hq) h

namespace Processor

theorem makeDictRow_keys (header fields : List String)
    (h : fields.length ≤ header.length) :
    ∀ q ∈ makeDictRow header fields, q.1 ≠ Option.none := by
  intro q hq
  unfold makeDictRow at hq
  rw [if_neg (by omega)] at hq
  refine pyDictOf_keys (fun k => k ≠ Option.none) _ ?_ q hq
  intro p hp
  rcases List.mem_append.mp hp with h1 | h2
  · rcases List.mem_append.mp h1 with ha | hb
    · rcases List.mem_map.mp ha with ⟨x, _, he⟩
      cases he
      simp
    · rcases List.mem_map.mp hb with ⟨x, _, he⟩
      cases he
      simp
  · cases h2

theorem foldlM_transform_ok :
    ∀ (row : DictRow) (d : List (String × FieldVal)),
      (∀ q ∈ row, q.1 ≠ Option.none) →
      ∃ out, row.foldlM transformStep d = Except.ok out := by
  intro row
  induction row with
  | nil => intro d _; exact ⟨d, rfl⟩
  | cons p t ih =>
    intro d h
    have hp := h p (by simp)
    rw [List.foldlM_cons]
    match hk : p.1 with
    | some k =>
      simp only [transformStep, hk]
      exact ih _ (fun q hq => h q (by simp [hq]))
    | none => exact absurd hk hp

theorem transformRow_ok_of_keys (row : DictRow)
    (h : ∀ q ∈ row, q.1 ≠ Option.none) :
    ∃ out, transformRow row = Except.ok out :=
  foldlM_transform_ok row [] h

theorem csv_fold_invariant (now : String) (rowId : Nat → String)
    (header : List String) :
    ∀ (rows : List (List String))
      (acc : Summary × List (List (String × FieldVal))),
      (∀ r ∈ rows, r.length ≤ header.length) →
      acc.1.invalid_records = 0 →
      acc.1.valid_records = acc.1.total_records →
      (rows.foldl (csvStep now rowId header) acc).1.invalid_records = 0 ∧
        (rows.foldl (csvStep now rowId header) acc).1.valid_records =
          (rows.foldl (csvStep now rowId header) acc).1.total_records := by
  intro rows
  induction rows with
  | nil => intro acc _ h0 hv; exact ⟨h0, hv⟩
  | cons r t ih =>
    intro acc h h0 hv
    simp only [List.foldl_cons]
    obtain ⟨out, hout⟩ := transformRow_ok_of_keys (makeDictRow header r)
      (makeDictRow_keys header r (h r (by simp)))
    refine ih _ (fun r' hr' => h r' (by simp [hr'])) ?_ ?_
    · simp [csvStep, hout, h0]
    · simp [csvStep, hout]
      omega

end Processor

/- ------------------------------------------------------------------ -/
/- C1                                                                 -/
/- ------------------------------------------------------------------ -/

/-- C1: the claim says that a metadata record's uploadTimestamp is set once
at the PROCESSING write and never changed, so that after the COMPLETED (or
FAILED) write it still equals the creation value. The code recomputes
uploadTimestamp from the clock inside update_metadata on every call and
put_item replaces the whole item, so after the COMPLETED write at clock
second 105 the record created at second 100 carries uploadTimestamp 105,
not 100. -/
theorem c1_uploadTimestamp_not_immutable :
    (Processor.get_item Processor.c1_store "file-1").map
        Processor.MetaItem.uploadTimestamp = some 105 ∧
      (Processor.get_item Processor.c1_store "file-1").map
        Processor.MetaItem.uploadTimestamp ≠ some 100 := by
  decide

/- ------------------------------------------------------------------ -/
/- C4                                                                 -/
/- ------------------------------------------------------------------ -/

/-- C4, counterexample: the per-row transform CAN raise. For the delimited
input with header row [a, b] and the single data row [1, 2, 3], DictReader
stores the extra field under the rest key None, k.strip() raises
AttributeError on that key, and the summary counts the row as invalid:
total 1, valid 0, invalid 1 — not invalid 0 as the claim states. -/
theorem c4_invalid_zero_counterexample :
    (Processor.process_csv_data "t" (fun _ => "u")
        [["a", "b"], ["1", "2", "3"]]).summary =
      { total_records := 1, valid_records := 0, invalid_records := 1 } ∧
    (Processor.process_csv_data "t" (fun _ => "u")
        [["a", "b"], ["1", "2", "3"]]).summary.invalid_records ≠ 0 := by
  decide

/-- C4, amended: for every delimited input with a header row in which no
data row has more fields than the header, the transform never raises, so
invalid_records stays 0 and valid_records equals total_records. -/
theorem c4_invalid_zero_amended (now : String) (rowId : Nat → String)
    (header : List String) (rest : List (List String))
    (h : ∀ r ∈ rest, r ≠ [] → r.length ≤ header.length) :
    (Processor.process_csv_data now rowId (header :: rest)).summary.invalid_records
        = 0 ∧
      (Processor.process_csv_data now rowId (header :: rest)).summary.valid_records
        = (Processor.process_csv_data now rowId (header :: rest)).summary.total_records := by
  simp only [Processor.process_csv_data]
  apply Processor.csv_fold_invariant
  · intro r hr
    have hm := List.mem_filter.mp hr
    exact h r hm.1 (by simpa using hm.2)
  · rfl
  · rfl

/-- C4, witness: the amended theorem applied to the concrete input with
header [a, b] and one well-formed data row. -/
theorem c4_invalid_zero_witness :
    (Processor.process_csv_data "t" (fun _ => "u")
        [["a", "b"], [" 1 ", "2"]]).summary.invalid_records = 0 ∧
      (Processor.process_csv_data "t" (fun _ => "u")
          [["a", "b"], [" 1 ", "2"]]).summary.valid_records =
        (Processor.process_csv_data "t" (fun _ => "u")
            [["a", "b"], [" 1 ", "2"]]).summary.total_records :=
  c4_invalid_zero_amended "t" (fun _ => "u") ["a", "b"] [[" 1 ", "2"]]
    (by decide)

namespace Processor

theorem events_foldl_counts (env : Env) (ctx : Ctx) :
    ∀ (items : List Json) (s f : Nat),
      items.foldl (eventsStep env ctx) (s, f) =
        (s + items.countP (process_s3_event env ctx),
          f + items.countP (fun it => !(process_s3_event env ctx it))) := by
  intro items
  induction items with
  | nil => intro s f; simp
  | cons a t ih =>
    intro s f
    by_cases h : process_s3_event env ctx a = true
    · simp only [List.foldl_cons, eventsStep, h, if_true, ih, List.countP_cons, h,
        Bool.not_true]
      refine Prod.ext ?_ ?_ <;> simp <;> omega
    · simp only [List.foldl_cons, eventsStep, h, if_false, ih, List.countP_cons,
        Bool.not_eq_true] at *
      simp only [h, Bool.not_false]
      refine Prod.ext ?_ ?_ <;> simp <;> omega

theorem envelope_foldl_counts (env : Env) (ctx : Ctx) :
    ∀ (recs : List SqsBody) (s f : Nat),
      recs.foldl (envelopeStep env ctx) (s, f) =
        (s + (recs.map (envSucc env ctx)).sum,
          f + (recs.map (envFail env ctx)).sum) := by
  intro recs
  induction recs with
  | nil => intro s f; simp
  | cons r t ih =>
    intro s f
    simp only [List.foldl_cons, List.map_cons, List.sum_cons]
    cases r with
    | badJson =>
      simp only [envelopeStep, envSucc, envFail, ih]
      refine Prod.ext ?_ ?_ <;> simp <;> omega
    | parsed j =>
      cases hc : pyContains "Records" j with
      | error e =>
        simp only [envelopeStep, envSucc, envFail, hc, ih]
        refine Prod.ext ?_ ?_ <;> simp <;> omega
      | ok b =>
        cases b with
        | false =>
          simp only [envelopeStep, envSucc, envFail, hc, ih]
          refine Prod.ext ?_ ?_ <;> simp <;> omega
        | true =>
          cases hi : pyIndex j "Records" with
          | error e =>
            simp only [envelopeStep, envSucc, envFail, hc, hi, ih]
            refine Prod.ext ?_ ?_ <;> simp <;> omega
          | ok v =>
            cases hit : pyIter v with
            | error e =>
              simp only [envelopeStep, envSucc, envFail, hc, hi, hit, ih]
              refine Prod.ext ?_ ?_ <;> simp <;> omega
            | ok items =>
              simp only [envelopeStep, envSucc, envFail, hc, hi, hit,
                events_foldl_counts env ctx items s f, ih]
              refine Prod.ext ?_ ?_ <;> simp <;> omega

theorem handler_counts (env : Env) (ctx : Ctx) (recs : List SqsBody) :
    handler env ctx recs =
      { statusCode := 200
        successful := (recs.map (envSucc env ctx)).sum
        failed := (recs.map (envFail env ctx)).sum } := by
  unfold handler
  rw [envelope_foldl_counts]
  simp

end Processor

/- ------------------------------------------------------------------ -/
/- C3                                                                 -/
/- ------------------------------------------------------------------ -/

/-- C3: for every ingestion batch, the handler always returns the
non-error outcome statusCode 200 (process_s3_event is a total function
into Bool: every exception of an embedded event's processing is consumed
at that event's boundary), and the reported counters decompose as
independent per-envelope, per-event sums — each embedded event contributes
to exactly one counter according to its own outcome, regardless of the
outcomes of its siblings in the same or any other envelope. -/
theorem c3_handler_isolation (env : Processor.Env) (ctx : Processor.Ctx)
    (recs : List Processor.SqsBody) :
    (Processor.handler env ctx recs).statusCode = 200 ∧
      (Processor.handler env ctx recs).successful =
        (recs.map (Processor.envSucc env ctx)).sum ∧
      (Processor.handler env ctx recs).failed =
        (recs.map (Processor.envFail env ctx)).sum := by
  rw [Processor.handler_counts]
  exact ⟨rfl, rfl, rfl⟩

/- ------------------------------------------------------------------ -/
/- C10                                                                -/
/- ------------------------------------------------------------------ -/

/-- C10, counterexample: an envelope whose body parses as valid JSON (the
number 5) and contains no embedded event list is NOT silently skipped: the
expression 'Records' in message_body raises TypeError on a non-container
body, the per-record except catches it, and the envelope is counted as one
failure instead of contributing to neither count. -/
theorem c10_missing_key_counterexample :
    Processor.handler Processor.trivEnv Processor.trivCtx
        [Processor.SqsBody.parsed (Processor.Json.num 5)] =
      { statusCode := 200, successful := 0, failed := 1 } ∧
    (Processor.handler Processor.trivEnv Processor.trivCtx
        [Processor.SqsBody.parsed (Processor.Json.num 5)]).failed ≠ 0 := by
  decide

/-- C10, amended: an envelope whose body parses as a JSON object without
the 'Records' key is silently skipped, contributing to neither count (the
batch result is unchanged by its presence); an envelope whose body fails
to parse counts as exactly one failure; and an envelope whose body parses
to a non-container JSON value — a number, a boolean, or null — also counts
as exactly one failure, because the key-membership test itself raises
TypeError. -/
theorem c10_missing_key_amended (env : Processor.Env) (ctx : Processor.Ctx)
    (pre post : List Processor.SqsBody) :
    (∀ kvs : List (String × Processor.Json),
        kvs.all (fun p => p.1 ≠ "Records") = true →
        Processor.handler env ctx
            (pre ++ Processor.SqsBody.parsed (Processor.Json.obj kvs) :: post) =
          Processor.handler env ctx (pre ++ post)) ∧
      (Processor.handler env ctx (pre ++ Processor.SqsBody.badJson :: post) =
        { Processor.handler env ctx (pre ++ post) with
            failed := (Processor.handler env ctx (pre ++ post)).failed + 1 }) ∧
      (∀ n : Int,
        Processor.handler env ctx
            (pre ++ Processor.SqsBody.parsed (Processor.Json.num n) :: post) =
          { Processor.handler env ctx (pre ++ post) with
              failed := (Processor.handler env ctx (pre ++ post)).failed + 1 }) ∧
      (∀ b : Bool,
        Processor.handler env ctx
            (pre ++ Processor.SqsBody.parsed (Processor.Json.jbool b) :: post) =
          { Processor.handler env ctx (pre ++ post) with
              failed := (Processor.handler env ctx (pre ++ post)).failed + 1 }) ∧
      (Processor.handler env ctx
          (pre ++ Processor.SqsBody.parsed Processor.Json.null :: post) =
        { Processor.handler env ctx (pre ++ post) with
            failed := (Processor.handler env ctx (pre ++ post)).failed + 1 }) := by
  refine ⟨?_, ?_, ?_, ?_, ?_⟩
  · intro kvs hkvs
    have hcont : Processor.pyContains "Records" (Processor.Json.obj kvs) =
        Except.ok false := by
      simp only [Processor.pyContains, Except.ok.injEq]
      rw [List.all_eq_true] at hkvs
      rw [List.any_eq_false]
      intro p hp
      simpa using hkvs p hp
    simp [Processor.handler_counts, Processor.envSucc, Processor.envFail, hcont]
  · simp [Processor.handler_counts, Processor.envSucc, Processor.envFail]
    omega
  · intro n
    simp [Processor.handler_counts, Processor.envSucc, Processor.envFail,
      Processor.pyContains]
    omega
  · intro b
    simp [Processor.handler_counts, Processor.envSucc, Processor.envFail,
      Processor.pyContains]
    omega
  · simp [Processor.handler_counts, Processor.envSucc, Processor.envFail,
      Processor.pyContains]
    omega

/-- C10, witness: the amended theorem applied at the concrete batch whose
single envelope is the JSON object with the single key foo. -/
theorem c10_missing_key_witness :
    Processor.handler Processor.trivEnv Processor.trivCtx
        [Processor.SqsBody.parsed
          (Processor.Json.obj [("foo", Processor.Json.null)])] =
      Processor.handler Processor.trivEnv Processor.trivCtx [] :=
  (c10_missing_key_amended Processor.trivEnv Processor.trivCtx [] []).1
    [("foo", Processor.Json.null)] (by decide)

/- ------------------------------------------------------------------ -/
/- Reporter helper lemmas.                                            -/
/- ------------------------------------------------------------------ -/

theorem sum_map_filter_if {α : Type} (p : α → Bool) (g : α → Int) :
    ∀ l : List α,
      ((l.filter p).map g).sum = (l.map (fun i => if p i then g i else 0)).sum := by
  intro l
  induction l with
  | nil => simp
  | cons a t ih =>
    by_cases h : p a = true
    · simp [List.filter_cons, h, ih]
    · simp [List.filter_cons, h, ih]

theorem c2_completed_sum :
    ∀ data : List Reporter.RItem,
      (∀ i ∈ data, Reporter.rcTruthy i = true →
        i.processingStatus = some "COMPLETED") →
      ((data.filter Reporter.rcTruthy).map (fun i => i.recordCount.getD 0)).sum =
        Reporter.totalRecordsCompletedSpec data := by
  intro data
  induction data with
  | nil => intro _; simp [Reporter.totalRecordsCompletedSpec]
  | cons a t ih =>
    intro h
    have ht := ih (fun i hi => h i (List.mem_cons_of_mem a hi))
    unfold Reporter.totalRecordsCompletedSpec at ht ⊢
    rw [List.filter_cons, List.filter_cons]
    by_cases ha : Reporter.rcTruthy a = true
    · have hc := h a (List.mem_cons_self a t) ha
      have hsome : a.recordCount.isSome = true := by
        unfold Reporter.rcTruthy at ha
        cases hrc : a.recordCount with
        | none => rw [hrc] at ha; cases ha
        | some n => simp
      have hp : (a.processingStatus == some "COMPLETED" &&
          a.recordCount.isSome) = true := by
        rw [hc]
        simp [hsome]
      rw [ha, hp, if_pos rfl, if_pos rfl, List.map_cons, List.map_cons,
        List.sum_cons, List.sum_cons, ht]
    · rw [Bool.not_eq_true] at ha
      rw [ha, if_neg (show ¬(false = true) by simp)]
      cases hrc : a.recordCount with
      | none =>
        rw [if_neg (show ¬((a.processingStatus == some "COMPLETED" &&
            (Option.none : Option Int).isSome) = true) by simp)]
        exact ht
      | some n =>
        have hn : n = 0 := by
          unfold Reporter.rcTruthy at ha
          rw [hrc] at ha
          simpa using ha
        by_cases hs : (a.processingStatus == some "COMPLETED") = true
        · rw [if_pos (show (a.processingStatus == some "COMPLETED" &&
              (some n : Option Int).isSome) = true by simp [hs])]
          rw [List.map_cons, List.sum_cons, hrc]
          simp only [Option.getD_some, hn, zero_add]
          exact ht
        · rw [Bool.not_eq_true] at hs
          rw [if_neg (show ¬((a.processingStatus == some "COMPLETED" &&
              (some n : Option Int).isSome) = true) by simp [hs])]
          exact ht

theorem filter_replicate_pos {α : Type} (p : α → Bool) (x : α) (h : p x = true) :
    ∀ n, (List.replicate n x).filter p = List.replicate n x := by
  intro n
  induction n with
  | zero => simp
  | succ m ih => simp [List.replicate_succ, List.filter_cons, h, ih]

theorem foldl_append_filter_map {α β : Type} (p : α → Bool) (f : α → β) :
    ∀ (l : List α) (acc : List β),
      l.foldl (fun es i => if p i then es ++ [f i] else es) acc =
        acc ++ (l.filter p).map f := by
  intro l
  induction l with
  | nil => intro acc; simp
  | cons a t ih =>
    intro acc
    by_cases h : p a = true
    · simp [List.filter_cons, h, ih]
    · simp [List.filter_cons, h, ih]

theorem topLe_trans : ∀ a b c : Reporter.TopEntry,
    Reporter.topLe a b = true → Reporter.topLe b c = true →
    Reporter.topLe a c = true := by
  intro a b c
  simp only [Reporter.topLe, decide_eq_true_eq]
  omega

theorem topLe_total : ∀ a b : Reporter.TopEntry,
    (Reporter.topLe a b || Reporter.topLe b a) = true := by
  intro a b
  simp only [Reporter.topLe, Bool.or_eq_true, decide_eq_true_eq]
  omega

/- ------------------------------------------------------------------ -/
/- C2                                                                 -/
/- ------------------------------------------------------------------ -/

/-- C2, counterexample: the sum at reporter line 109 has no status filter.
For a window holding one FAILED record that carries recordCount 5, the
report's total-records figure is 5, while the sum of recordCount over
COMPLETED records with the field present — what the claim states — is 0. -/
theorem c2_total_records_counterexample :
    (Reporter.generate_report Reporter.constKey Reporter.constKey "" "" "" ""
          [Reporter.c2Failed]).summary.total_records_processed = 5 ∧
      Reporter.totalRecordsCompletedSpec [Reporter.c2Failed] = 0 ∧
      (Reporter.generate_report Reporter.constKey Reporter.constKey "" "" "" ""
            [Reporter.c2Failed]).summary.total_records_processed ≠
        Reporter.totalRecordsCompletedSpec [Reporter.c2Failed] := by
  decide

/-- C2, amended: the total-records figure equals the sum of recordCount
over all records whose recordCount field is present and nonzero,
irrespective of status; whenever every record carrying a nonzero
recordCount has status COMPLETED (which the ingestion stage ensures, since
only its COMPLETED write sets the field), this coincides with the
COMPLETED-only sum the claim describes. -/
theorem c2_total_records_amended (hk iso : Int → String)
    (env now s e : String) (data : List Reporter.RItem)
    (h : ∀ i ∈ data, Reporter.rcTruthy i = true →
      i.processingStatus = some "COMPLETED") :
    (Reporter.generate_report hk iso env now s e data).summary.total_records_processed =
        (data.map (fun i => if Reporter.rcTruthy i then i.recordCount.getD 0 else 0)).sum ∧
      (Reporter.generate_report hk iso env now s e data).summary.total_records_processed =
        Reporter.totalRecordsCompletedSpec data := by
  have hcode :
      (Reporter.generate_report hk iso env now s e data).summary.total_records_processed =
        ((data.filter Reporter.rcTruthy).map (fun i => i.recordCount.getD 0)).sum := rfl
  constructor
  · rw [hcode]
    exact sum_map_filter_if _ _ data
  · rw [hcode]
    exact c2_completed_sum data h

/-- C2, witness: the amended theorem applied to the five-record window in
which every record carrying a recordCount is COMPLETED. -/
theorem c2_total_records_witness :
    (Reporter.generate_report Reporter.constKey Reporter.constKey "" "" "" ""
        Reporter.fiveData).summary.total_records_processed =
      Reporter.totalRecordsCompletedSpec Reporter.fiveData :=
  (c2_total_records_amended Reporter.constKey Reporter.constKey "" "" "" ""
    Reporter.fiveData (by decide)).2

/- ------------------------------------------------------------------ -/
/- C5                                                                 -/
/- ------------------------------------------------------------------ -/

/-- C5, counterexample: the comprehension feeding sorted(...) keeps a
record only when item.get('recordCount') is truthy, so a record whose
recordCount field is present with value 0 is dropped: for a window holding
exactly that record, top_files is empty even though one record has the
field, while the claim says every record with the field present is
ranked. -/
theorem c5_top_files_counterexample :
    (Reporter.generate_report Reporter.constKey Reporter.constKey "" "" "" ""
          [Reporter.c5Zero]).top_files = [] ∧
      ([Reporter.c5Zero].filter (fun i => i.recordCount.isSome)).length = 1 := by
  constructor
  · show (Reporter.sortedTop [Reporter.c5Zero]).take 10 = []
    have he : Reporter.topEntries [Reporter.c5Zero] = [] := by decide
    unfold Reporter.sortedTop
    rw [he, List.mergeSort_nil]
    rfl
  · decide

/-- C5, amended: top_files is the first 10 of the full stable descending
sort, by recordCount, of exactly those records whose recordCount field is
present and nonzero: the list is a take-10 of the sorted entries, has
length at most 10, is sorted by recordCount descending, contains only
entries of records with truthy recordCount, and the sort keeps every
correctly-ordered pair — ties included — in its original scan order. -/
theorem c5_top_files_amended (hk iso : Int → String) (env now s e : String)
    (data : List Reporter.RItem) :
    (Reporter.generate_report hk iso env now s e data).top_files =
        (Reporter.sortedTop data).take 10 ∧
      (Reporter.generate_report hk iso env now s e data).top_files.length ≤ 10 ∧
      List.Pairwise
        (fun a b : Reporter.TopEntry => b.recordCount ≤ a.recordCount)
        (Reporter.generate_report hk iso env now s e data).top_files ∧
      (∀ t ∈ (Reporter.generate_report hk iso env now s e data).top_files,
        ∃ i ∈ data, Reporter.rcTruthy i = true ∧
          t = { fileName := i.fileName, recordCount := i.recordCount.getD 0 }) ∧
      (∀ a b : Reporter.TopEntry, Reporter.topLe a b = true →
        [a, b].Sublist (Reporter.topEntries data) →
        [a, b].Sublist (Reporter.sortedTop data)) := by
  refine ⟨rfl, ?_, ?_, ?_, ?_⟩
  · show ((Reporter.sortedTop data).take 10).length ≤ 10
    rw [List.length_take]
    exact min_le_left _ _
  · have hs := List.sorted_mergeSort topLe_trans topLe_total
      (Reporter.topEntries data)
    have hp : List.Pairwise (fun a b => Reporter.topLe a b = true)
        ((Reporter.sortedTop data).take 10) :=
      List.Pairwise.sublist (List.take_sublist 10 _) hs
    exact hp.imp (by
      intro a b hab
      simpa [Reporter.topLe, decide_eq_true_eq] using hab)
  · intro t ht
    have ht' : t ∈ Reporter.sortedTop data := List.take_subset _ _ ht
    have htm : t ∈ Reporter.topEntries data := List.mem_mergeSort.mp ht'
    rcases List.mem_map.mp htm with ⟨i, hi, he⟩
    rcases List.mem_filter.mp hi with ⟨hid, hrc⟩
    exact ⟨i, hid, hrc, he.symm⟩
  · intro a b hle hsub
    refine List.sublist_mergeSort topLe_trans topLe_total ?_ hsub
    simp [List.pairwise_cons, hle]

/-- C5, witness: the amended theorem's stability clause applied to the
concrete window with two records tied at recordCount 7: the sorted entries
keep the scan order t1.csv before t2.csv. -/
theorem c5_top_files_witness :
    [Reporter.tieEntryA, Reporter.tieEntryB].Sublist
      (Reporter.sortedTop Reporter.tieData) := by
  have he : Reporter.topEntries Reporter.tieData =
      [Reporter.tieEntryA, Reporter.tieEntryB] := by decide
  exact (c5_top_files_amended Reporter.constKey Reporter.constKey "" "" "" ""
      Reporter.tieData).2.2.2.2 Reporter.tieEntryA Reporter.tieEntryB
    (by decide) (he ▸ List.Sublist.refl _)

/- ------------------------------------------------------------------ -/
/- C6                                                                 -/
/- ------------------------------------------------------------------ -/

/-- C6: the report's success rate equals completed divided by total times
100, rounded to 2 decimals, when the window is nonempty, and is 0 — with
no division performed — when the window is empty. Python float arithmetic
is modeled exactly over the rationals. -/
theorem c6_success_rate (hk iso : Int → String) (env now s e : String)
    (data : List Reporter.RItem) :
    (data ≠ [] →
        (Reporter.generate_report hk iso env now s e data).summary.success_rate_percent =
          Reporter.round2
            (((data.countP (fun i => i.processingStatus == some "COMPLETED") : ℚ) /
                (data.length : ℚ)) * 100)) ∧
      (data = [] →
        (Reporter.generate_report hk iso env now s e data).summary.success_rate_percent
          = 0) := by
  have hcode :
      (Reporter.generate_report hk iso env now s e data).summary.success_rate_percent =
        Reporter.round2
          (if data.length > 0 then
            ((data.countP (fun i => i.processingStatus == some "COMPLETED") : ℚ) /
                (data.length : ℚ)) * 100
          else 0) := rfl
  constructor
  · intro hne
    rw [hcode, if_pos (List.length_pos.mpr hne)]
  · intro he
    subst he
    rw [hcode]
    norm_num [Reporter.round2, Reporter.roundHalfEven]

/-- C6, witness: for the window of five records with three COMPLETED and
two FAILED, the success rate is 60. -/
theorem c6_success_rate_witness :
    (Reporter.generate_report Reporter.constKey Reporter.constKey "" "" "" ""
        Reporter.fiveData).summary.success_rate_percent = 60 := by
  have h3 : Reporter.fiveData.countP
      (fun i => i.processingStatus == some "COMPLETED") = 3 := by decide
  have h5 : Reporter.fiveData.length = 5 := by decide
  have h := (c6_success_rate Reporter.constKey Reporter.constKey "" "" "" ""
      Reporter.fiveData).1 (by decide)
  rw [h, h3, h5]
  norm_num [Reporter.round2, Reporter.roundHalfEven]

/- ------------------------------------------------------------------ -/
/- C7                                                                 -/
/- ------------------------------------------------------------------ -/

/-- C7: fetch_report_data follows the scan's continuation tokens until
exhausted, returning exactly the matching records of every page of the
store; in particular, for the store whose scan needs two pages (100
records, then 50) to enumerate 150 matching records, the report's total
file count is 150, not the single-page 100. -/
theorem c7_pagination_complete (lo hi : Int)
    (pages : List (List Reporter.RItem)) :
    Reporter.fetch_report_data lo hi pages =
        pages.flatten.filter (Reporter.inWindow lo hi) ∧
      (Reporter.generate_report Reporter.constKey Reporter.constKey "" "" "" ""
          (Reporter.fetch_report_data 0 1000 Reporter.twoPages)).summary.total_files_processed
        = 150 := by
  constructor
  · induction pages with
    | nil => simp [Reporter.fetch_report_data]
    | cons p rest ih =>
      simp [Reporter.fetch_report_data, ih, List.flatten_cons, List.filter_append]
  · have h1 : Reporter.inWindow 0 1000 Reporter.pageItem = true := by decide
    have hf : Reporter.fetch_report_data 0 1000 Reporter.twoPages =
        List.replicate 100 Reporter.pageItem ++
          (List.replicate 50 Reporter.pageItem ++ []) := by
      show (List.replicate 100 Reporter.pageItem).filter (Reporter.inWindow 0 1000) ++
          ((List.replicate 50 Reporter.pageItem).filter (Reporter.inWindow 0 1000) ++ [])
          = _
      rw [filter_replicate_pos _ _ h1, filter_replicate_pos _ _ h1]
    show (Reporter.fetch_report_data 0 1000 Reporter.twoPages).length = 150
    rw [hf]
    simp

/- ------------------------------------------------------------------ -/
/- C8                                                                 -/
/- ------------------------------------------------------------------ -/

/-- C8: the report's error list is exactly the first 10 entries, in scan
arrival order, built from the FAILED records whose errorMessage is present
and nonempty — FAILED records with an absent or empty error detail never
appear, the order is the scan order (not sorted by time), and the list
never exceeds 10 entries. -/
theorem c8_errors_first_ten (hk iso : Int → String) (env now s e : String)
    (data : List Reporter.RItem) :
    (Reporter.generate_report hk iso env now s e data).errors =
        ((data.filter Reporter.failedWithMsg).map (Reporter.mkErr iso)).take 10 ∧
      (Reporter.generate_report hk iso env now s e data).errors.length ≤ 10 := by
  have he : (Reporter.generate_report hk iso env now s e data).errors =
      (Reporter.errorsFold iso data).take 10 := rfl
  have hf : Reporter.errorsFold iso data =
      (data.filter Reporter.failedWithMsg).map (Reporter.mkErr iso) := by
    unfold Reporter.errorsFold
    rw [foldl_append_filter_map]
    simp
  constructor
  · rw [he, hf]
  · rw [he, hf, List.length_take]
    exact min_le_left _ _

/- ------------------------------------------------------------------ -/
/- C9                                                                 -/
/- ------------------------------------------------------------------ -/

/-- C9: report generation is deterministic in its inputs. For a fixed
record list, fixed window bounds and fixed timezone conversions, two runs
that differ only in the generation clock reading produce identical summary,
hourly breakdown, error list and top-files list; the report metadata
differs at most in the generated_at field. -/
theorem c9_report_deterministic (hk iso : Int → String) (env s e : String)
    (data : List Reporter.RItem) (now1 now2 : String) :
    (Reporter.generate_report hk iso env now1 s e data).summary =
        (Reporter.generate_report hk iso env now2 s e data).summary ∧
      (Reporter.generate_report hk iso env now1 s e data).hourly_breakdown =
        (Reporter.generate_report hk iso env now2 s e data).hourly_breakdown ∧
      (Reporter.generate_report hk iso env now1 s e data).errors =
        (Reporter.generate_report hk iso env now2 s e data).errors ∧
      (Reporter.generate_report hk iso env now1 s e data).top_files =
        (Reporter.generate_report hk iso env now2 s e data).top_files ∧
      (Reporter.generate_report hk iso env now1 s e data).report_metadata =
        { (Reporter.generate_report hk iso env now2 s e data).report_metadata with
            generated_at := now1 } :=
  ⟨rfl, rfl, rfl, rfl, rfl⟩
